import Mathlib

/-!
# Email OTP cloud functions (`functions/index.js`)

A shallow embedding of the two callable cloud functions `sendOtp` and
`verifyOtp`, of the helpers `generateOtp` and `isOtpExpired`, and of the
collaborators they talk to (the `emailOtps` collection and the mail
transporter).

Modelling conventions.

* Times are integers: milliseconds since the epoch, the value of a JavaScript
  `Date`.  `new Date()` and the server timestamp are read from an explicit
  environment.
* A JavaScript number is the rational number it denotes.  `Math.random()` is
  an explicit double of the interval from 0 inclusive to 1 exclusive, supplied
  by the environment.  In `generateOtp` the product and the sum each return the
  double nearest to their exact result (`roundDouble`).  In `isOtpExpired` the
  difference of two dates is an integer number of milliseconds, and the
  comparison of its quotient by 60000 with 5 has the same outcome in double
  precision as over the rationals (rounding is monotone, 5 is a double, and a
  quotient above 5 exceeds it by at least 1/60000), so that quotient is left
  exact.
* A request field that may be missing is an `Option String`; the JavaScript
  test `!x` on such a field holds for `none` and for the empty string.
* The collaborators may fail: every call of the store or of the transporter
  has an outcome in the environment.  A failed call leaves the store and the
  outbox as they were.  Every call that is attempted is appended to
  `World.calls`.
* `try { ... } catch (error) { ... }` is a function for the body that returns
  the thrown value as an `Except` error, and a handler applied to it.
-/

namespace TaskManager

/-! ## Data model -/

/-- The `functions.https.HttpsError` raised to the caller: a status code and a
message. -/
structure HttpsError where
  code : String
  message : String
deriving DecidableEq, Repr

/-- A value thrown inside a `try` block: either an `HttpsError` built by the
function itself or an error raised by a collaborator.  Both carry a
`message`. -/
inductive Thrown where
  | https (e : HttpsError)
  | collaborator (message : String)
deriving DecidableEq, Repr

/-- The `message` property of a thrown error (`error.message`). -/
def Thrown.message : Thrown → String
  | .https e => e.message
  | .collaborator m => m

/-- A Firestore `Timestamp`, seen through `toDate()`: the milliseconds since the
epoch of the `Date` it converts to. -/
structure Timestamp where
  toDate : Int
deriving DecidableEq, Repr

/-- A document of the `emailOtps` collection, as written by `sendOtp`:
`{otp, createdAt}`.  `createdAt` may be absent, the case `isOtpExpired`
guards against. -/
structure OtpDoc where
  otp : String
  createdAt : Option Timestamp
deriving DecidableEq, Repr

/-- The argument of `transporter.sendMail`. -/
structure Mail where
  sender : String
  recipient : String
  subject : String
  html : String
deriving DecidableEq, Repr

/-- A call made to a collaborator. -/
inductive Call where
  | docSet (email : String)
  | docGet (email : String)
  | docDelete (email : String)
  | sendMail (recipient : String)
deriving DecidableEq, Repr

/-- The state outside the functions: the `emailOtps` collection keyed by
document id, the mails the transporter has accepted, and the collaborator calls
attempted so far. -/
structure World where
  store : String → Option OtpDoc
  outbox : List Mail
  calls : List Call

/-- Appends an attempted collaborator call to the log. -/
def World.record (w : World) (c : Call) : World :=
  { w with calls := w.calls ++ [c] }

/-- The effect of `doc(email).set(d)`: overwrite the document. -/
def World.docSet (w : World) (email : String) (d : OtpDoc) : World :=
  { w with store := fun k => if k = email then some d else w.store k }

/-- The effect of `doc(email).delete()`. -/
def World.docDelete (w : World) (email : String) : World :=
  { w with store := fun k => if k = email then none else w.store k }

/-- The effect of a `sendMail` the transporter accepted. -/
def World.deliver (w : World) (m : Mail) : World :=
  { w with outbox := w.outbox ++ [m] }

/-- The world with no document, no mail and no call. -/
def World.empty : World :=
  { store := fun _ => none, outbox := [], calls := [] }

/-! ## Helpers of `index.js` -/

/-- OTP expiration time in minutes. -/
def OTP_EXPIRATION_MINUTES : Nat := 5

/-- The integer nearest to `n`, the even one of the two when `n` lies half-way
between two integers. -/
def roundHalfEven (n : ℚ) : ℤ :=
  let f := Int.floor n
  let d := n - f
  if d < 1 / 2 then f
  else if 1 / 2 < d then f + 1
  else if f % 2 = 0 then f else f + 1

/-- The double nearest to `x`: what an arithmetic operation on JavaScript numbers
returns when its exact result is `x` (IEEE 754 binary64, round to nearest, ties
to even).  Around `x`, with `2 ^ e ≤ |x| < 2 ^ (e + 1)`, the doubles are the
multiples of `2 ^ (e - 52)`, and of `2 ^ (-1074)` when `e` is below `-1022`.
Results of magnitude `2 ^ 1024` and above, which overflow to `Infinity`, do not
occur in this program and are not modelled. -/
def roundDouble (x : ℚ) : ℚ :=
  if x = 0 then 0
  else
    let e := max (Int.log 2 |x|) (-1022)
    (roundHalfEven (x / 2 ^ (e - 52)) : ℚ) * 2 ^ (e - 52)

/-- The source's `Math.floor(100000 + Math.random() * 900000).toString()`, with
the value of `Math.random()` as argument.  The product and then the sum are
rounded to a double; `Math.floor` of a double and the decimal string of an
integer of this size are exact. -/
def generateOtp (random : ℚ) : String :=
  toString (Int.floor (roundDouble (100000 + roundDouble (random * 900000))))

/-- The source's `isOtpExpired(timestamp)`, with the value of `new Date()` as
first argument. -/
def isOtpExpired (now : Int) (timestamp : Option Timestamp) : Bool :=
  match timestamp with
  | none => true
  | some t =>
    let diffInMinutes : ℚ := ((now - t.toDate : Int) : ℚ) / 60000
    decide (diffInMinutes > (OTP_EXPIRATION_MINUTES : ℚ))

/-! ## `sendOtp` -/

/-- The request of `sendOtp`: `data.email`. -/
structure SendData where
  email : Option String
deriving DecidableEq, Repr

/-- The value `sendOtp` resolves to. -/
structure SendResult where
  message : String
deriving DecidableEq, Repr

/-- What `sendOtp` reads from outside: the value of `Math.random()`, the time
the store assigns for `serverTimestamp()`, and whether the store write and the
mail send are rejected.  The value of `Math.random()` is a double of the
interval from 0 inclusive to 1 exclusive: a number `m / 2 ^ k` below 1 with a
significand `m` below `2 ^ 53` and at most 1074 binary places. -/
structure SendEnv where
  random : ℚ
  random_nonneg : 0 ≤ random
  random_lt_one : random < 1
  random_dyadic : ∃ m k : ℕ, k ≤ 1074 ∧ m < 2 ^ 53 ∧ random = (m : ℚ) / 2 ^ k
  serverTime : Int
  setFails : Bool
  sendMailFails : Bool

/-- The `html` template of the mail, around the code. -/
def otpHtml (otp : String) : String :=
  "\n        <div style=\"font-family:sans-serif; padding:20px; border-radius:10px;\n" ++
  "          border:1px solid #ddd;\">\n" ++
  "          <h2>🔐 Email Verification</h2>\n" ++
  "          <p>Hello 👋,</p>\n" ++
  "          <p>Your OTP code is:</p>\n" ++
  "          <h1 style=\"color:#4B6BFB;\">" ++ otp ++ "</h1>\n" ++
  "          <p>\n" ++
  "            This OTP will expire in " ++ toString OTP_EXPIRATION_MINUTES ++ " minutes.\n" ++
  "          </p>\n" ++
  "          <p>If you didn’t request this, please ignore this email.</p>\n" ++
  "          <br/>\n" ++
  "          <p>— Task Manager App</p>\n" ++
  "        </div>\n      "

/-- The mail `sendOtp` hands to the transporter. -/
def otpMail (email otp : String) : Mail :=
  { sender := "\"Task Manager App\" <your_email@gmail.com>"
    recipient := email
    subject := "Your OTP Code (Task Manager)"
    html := otpHtml otp }

/-- The body of the `try` block of `sendOtp`: write the document, then send the
mail.  The `catch` of `sendOtp` ignores the error it receives, so the messages
of the two collaborator errors are placeholders. -/
def sendOtpTry (env : SendEnv) (email otp : String) (w : World) :
    Except Thrown SendResult × World :=
  let w1 := w.record (.docSet email)
  if env.setFails then
    (.error (.collaborator "set failed"), w1)
  else
    let w2 := w1.docSet email { otp := otp, createdAt := some ⟨env.serverTime⟩ }
    let w3 := w2.record (.sendMail email)
    if env.sendMailFails then
      (.error (.collaborator "sendMail failed"), w3)
    else
      (.ok { message := "OTP sent successfully!" }, w3.deliver (otpMail email otp))

/-- The callable `sendOtp`. -/
def sendOtp (env : SendEnv) (data : SendData) (w : World) :
    Except HttpsError SendResult × World :=
  match data.email with
  | none => (.error ⟨"invalid-argument", "Email is required"⟩, w)
  | some email =>
    if email = "" then
      (.error ⟨"invalid-argument", "Email is required"⟩, w)
    else
      let otp := generateOtp env.random
      match sendOtpTry env email otp w with
      | (.ok r, w') => (.ok r, w')
      | (.error _, w') => (.error ⟨"internal", "Failed to send OTP"⟩, w')

/-! ## `verifyOtp` -/

/-- The request of `verifyOtp`: `{email, otp}`. -/
structure VerifyData where
  email : Option String
  otp : Option String
deriving DecidableEq, Repr

/-- The value `verifyOtp` resolves to. -/
structure VerifyResult where
  verified : Bool
  message : String
deriving DecidableEq, Repr

/-- What `verifyOtp` reads from outside: the value of `new Date()`, and the
error message of the store read and of the store delete when they are
rejected. -/
structure VerifyEnv where
  now : Int
  getError : Option String
  deleteError : Option String

/-- The body of the `try` block of `verifyOtp`. -/
def verifyOtpTry (env : VerifyEnv) (email otp : String) (w : World) :
    Except Thrown VerifyResult × World :=
  let w1 := w.record (.docGet email)
  match env.getError with
  | some m => (.error (.collaborator m), w1)
  | none =>
    match w.store email with
    | none => (.error (.https ⟨"not-found", "No OTP found for this email"⟩), w1)
    | some doc =>
      if isOtpExpired env.now doc.createdAt then
        (.error (.https ⟨"deadline-exceeded", "OTP expired, please request again"⟩), w1)
      else if otp ≠ doc.otp then
        (.error (.https ⟨"permission-denied", "Invalid OTP"⟩), w1)
      else
        let w2 := w1.record (.docDelete email)
        match env.deleteError with
        | some m => (.error (.collaborator m), w2)
        | none =>
          (.ok { verified := true, message := "OTP verified successfully!" },
            w2.docDelete email)

/-- The callable `verifyOtp`: the input check, then the `try` block, whose
`catch` rethrows whatever was thrown as an `internal` error with the same
message. -/
def verifyOtp (env : VerifyEnv) (data : VerifyData) (w : World) :
    Except HttpsError VerifyResult × World :=
  match data.email, data.otp with
  | some email, some otp =>
    if email = "" ∨ otp = "" then
      (.error ⟨"invalid-argument", "Email and OTP required"⟩, w)
    else
      match verifyOtpTry env email otp w with
      | (.ok r, w') => (.ok r, w')
      | (.error error, w') => (.error ⟨"internal", error.message⟩, w')
  | _, _ => (.error ⟨"invalid-argument", "Email and OTP required"⟩, w)

/-- The environment of a `verifyOtp` call at time `now` whose store calls are
served. -/
def VerifyEnv.served (now : Int) : VerifyEnv :=
  { now := now, getError := none, deleteError := none }

/-- The success value of `verifyOtp`. -/
def verifiedOk : VerifyResult :=
  { verified := true, message := "OTP verified successfully!" }

/-- An environment of `sendOtp` at server time `t` in which `Math.random()` is 0
and both collaborators accept. -/
def envZero (t : Int) : SendEnv :=
  { random := 0, random_nonneg := le_refl 0, random_lt_one := zero_lt_one,
    random_dyadic := ⟨0, 0, by norm_num, by norm_num, by norm_num⟩,
    serverTime := t, setFails := false, sendMailFails := false }

/-- An environment of `sendOtp` at server time `t` in which `Math.random()` is
`1 / 2097152`, the double `2 ^ (-21)`, and both collaborators accept. -/
def envTiny (t : Int) : SendEnv :=
  { random := 1 / 2097152, random_nonneg := by norm_num, random_lt_one := by norm_num,
    random_dyadic := ⟨1, 21, by norm_num, by norm_num, by norm_num⟩,
    serverTime := t, setFails := false, sendMailFails := false }

/-- An environment of `sendOtp` at server time `t` in which `Math.random()` is
`1 / 2` and both collaborators accept. -/
def envHalf (t : Int) : SendEnv :=
  { random := 1 / 2, random_nonneg := by norm_num, random_lt_one := by norm_num,
    random_dyadic := ⟨1, 1, by norm_num, by norm_num, by norm_num⟩,
    serverTime := t, setFails := false, sendMailFails := false }

/-- An environment of `sendOtp` at server time `t` in which `Math.random()` is 0,
the store accepts the write and the transporter rejects the mail. -/
def envMailDown (t : Int) : SendEnv :=
  { random := 0, random_nonneg := le_refl 0, random_lt_one := zero_lt_one,
    random_dyadic := ⟨0, 0, by norm_num, by norm_num, by norm_num⟩,
    serverTime := t, setFails := false, sendMailFails := true }

/-- A world whose only document is `{otp: code, createdAt: t}` under `email`. -/
def World.single (email code : String) (t : Int) : World :=
  World.empty.docSet email { otp := code, createdAt := some ⟨t⟩ }

/-! ## Decimal representation of six-digit numbers -/

theorem toDigits_six (n : Nat) (h1 : 100000 ≤ n) (h2 : n < 1000000) :
    Nat.toDigits 10 n =
      [Nat.digitChar (n / 100000 % 10), Nat.digitChar (n / 10000 % 10),
       Nat.digitChar (n / 1000 % 10), Nat.digitChar (n / 100 % 10),
       Nat.digitChar (n / 10 % 10), Nat.digitChar (n % 10)] := by
  obtain ⟨k, rfl⟩ : ∃ k, n = k + 6 := ⟨n - 6, by omega⟩
  have e1 : (k + 6) / 10 ≠ 0 := by omega
  have e2 : (k + 6) / 10 / 10 ≠ 0 := by omega
  have e3 : (k + 6) / 10 / 10 / 10 ≠ 0 := by omega
  have e4 : (k + 6) / 10 / 10 / 10 / 10 ≠ 0 := by omega
  have e5 : (k + 6) / 10 / 10 / 10 / 10 / 10 ≠ 0 := by omega
  have e6 : (k + 6) / 10 / 10 / 10 / 10 / 10 / 10 = 0 := by omega
  simp only [Nat.toDigits, Nat.toDigitsCore, e1, e2, e3, e4, e5, e6, if_false, if_true]
  simp only [Nat.div_div_eq_div_mul]

theorem digits_six (n : Nat) (h1 : 100000 ≤ n) (h2 : n < 1000000) :
    Nat.digits 10 n =
      [n % 10, n / 10 % 10, n / 100 % 10, n / 1000 % 10, n / 10000 % 10, n / 100000 % 10] := by
  have e0 : 0 < n := by omega
  have e1 : 0 < n / 10 := by omega
  have e2 : 0 < n / 10 / 10 := by omega
  have e3 : 0 < n / 10 / 10 / 10 := by omega
  have e4 : 0 < n / 10 / 10 / 10 / 10 := by omega
  have e5 : 0 < n / 10 / 10 / 10 / 10 / 10 := by omega
  have e6 : n / 10 / 10 / 10 / 10 / 10 / 10 = 0 := by omega
  rw [Nat.digits_def' (by decide) e0, Nat.digits_def' (by decide) e1,
    Nat.digits_def' (by decide) e2, Nat.digits_def' (by decide) e3,
    Nat.digits_def' (by decide) e4, Nat.digits_def' (by decide) e5, e6]
  simp only [Nat.div_div_eq_div_mul, Nat.digits_zero, Nat.reduceMul]

theorem digitChar_isDigit (d : Nat) (h : d < 10) : (Nat.digitChar d).isDigit = true := by
  interval_cases d <;> decide

theorem digitChar_ne_zero (d : Nat) (h0 : 0 < d) (h : d < 10) : Nat.digitChar d ≠ '0' := by
  interval_cases d <;> decide

/-! ## Rounding to the nearest double -/

theorem floor_le_roundHalfEven (n : ℚ) : Int.floor n ≤ roundHalfEven n := by
  unfold roundHalfEven
  simp only
  split_ifs <;> omega

theorem roundHalfEven_le_floor_succ (n : ℚ) : roundHalfEven n ≤ Int.floor n + 1 := by
  unfold roundHalfEven
  simp only
  split_ifs <;> omega

theorem roundHalfEven_of_frac_lt (n : ℚ) (h : n - Int.floor n < 1 / 2) :
    roundHalfEven n = Int.floor n := by
  unfold roundHalfEven
  simp only [h, if_true]

theorem roundHalfEven_of_frac_gt (n : ℚ) (h : 1 / 2 < n - Int.floor n) :
    roundHalfEven n = Int.floor n + 1 := by
  unfold roundHalfEven
  simp only [not_lt.mpr (le_of_lt h), h, if_true, if_false]

theorem le_roundHalfEven (n : ℚ) (K : ℤ) (h : (K : ℚ) ≤ n) : K ≤ roundHalfEven n :=
  le_trans (Int.le_floor.mpr h) (floor_le_roundHalfEven n)

theorem roundHalfEven_le_of_lt_half (n : ℚ) (K : ℤ) (h : n < K + 1 / 2) :
    roundHalfEven n ≤ K := by
  have hf : Int.floor n ≤ K := by
    rw [← Int.lt_add_one_iff, Int.floor_lt]
    push_cast
    linarith
  rcases lt_or_eq_of_le hf with hlt | heq
  · have := roundHalfEven_le_floor_succ n
    omega
  · rw [roundHalfEven_of_frac_lt n (by rw [heq]; linarith), heq]

theorem roundHalfEven_le (n : ℚ) (K : ℤ) (h : n ≤ K) : roundHalfEven n ≤ K :=
  roundHalfEven_le_of_lt_half n K (by linarith)

theorem le_roundHalfEven_of_gt_half (n : ℚ) (K : ℤ) (h : (K : ℚ) - 1 / 2 < n) :
    K ≤ roundHalfEven n := by
  have hf : K - 1 ≤ Int.floor n := by
    rw [Int.le_floor]
    push_cast
    linarith
  rcases lt_or_eq_of_le hf with hlt | heq
  · have := floor_le_roundHalfEven n
    omega
  · have hfl : ((Int.floor n : ℤ) : ℚ) = K - 1 := by rw [← heq]; push_cast; ring
    rw [roundHalfEven_of_frac_gt n (by rw [hfl]; linarith), ← heq]
    ring_nf
    omega

theorem log_two_eq (y : ℚ) (e : ℤ) (h1 : (2 : ℚ) ^ e ≤ y) (h2 : y < 2 ^ (e + 1)) :
    Int.log 2 y = e := by
  have hpos : 0 < y := lt_of_lt_of_le (zpow_pos (by norm_num) e) h1
  have ha : e ≤ Int.log 2 y :=
    (Int.zpow_le_iff_le_log (by norm_num) hpos).mp (by simpa using h1)
  have hb : Int.log 2 y < e + 1 :=
    (Int.lt_zpow_iff_log_lt (by norm_num) hpos).mp (by simpa using h2)
  omega

theorem ulp_exp_le (x : ℚ) (hx : x ≠ 0) (q : ℤ) (hq : -1074 ≤ q)
    (hlt : |x| < 2 ^ (q + 53)) : max (Int.log 2 |x|) (-1022) - 52 ≤ q := by
  have hpos : 0 < |x| := abs_pos.mpr hx
  have hb : Int.log 2 |x| < q + 53 :=
    (Int.lt_zpow_iff_log_lt (by norm_num) hpos).mp (by simpa using hlt)
  have hm : max (Int.log 2 |x|) (-1022) ≤ q + 52 := max_le (by omega) (by omega)
  omega

theorem roundDouble_of_ne (x : ℚ) (hx : x ≠ 0) :
    roundDouble x =
      (roundHalfEven (x / 2 ^ (max (Int.log 2 |x|) (-1022) - 52)) : ℚ) *
        2 ^ (max (Int.log 2 |x|) (-1022) - 52) := by
  unfold roundDouble
  simp only [hx, if_false]

theorem grid_rescale (k q e : ℤ) (h : e ≤ q) :
    ((k * 2 ^ (q - e).toNat : ℤ) : ℚ) * 2 ^ e = (k : ℚ) * 2 ^ q := by
  have hj : ((q - e).toNat : ℤ) = q - e := Int.toNat_of_nonneg (by omega)
  have h2 : (2 : ℚ) ^ q = 2 ^ ((q - e).toNat : ℤ) * 2 ^ e := by
    rw [← zpow_add₀ (by norm_num : (2 : ℚ) ≠ 0), hj]
    congr 1
    ring
  rw [h2, zpow_natCast]
  push_cast
  ring

theorem roundDouble_grid (x : ℚ) (q k : ℤ) (hq : -1074 ≤ q) (hlt : |x| < 2 ^ (q + 53)) :
    (x ≤ (k : ℚ) * 2 ^ q → roundDouble x ≤ (k : ℚ) * 2 ^ q) ∧
    ((k : ℚ) * 2 ^ q ≤ x → (k : ℚ) * 2 ^ q ≤ roundDouble x) := by
  by_cases hx : x = 0
  · subst hx
    simp [roundDouble]
  · have he := ulp_exp_le x hx q hq hlt
    have hu : (0 : ℚ) < 2 ^ (max (Int.log 2 |x|) (-1022) - 52) := zpow_pos (by norm_num) _
    rw [roundDouble_of_ne x hx, ← grid_rescale k q _ he]
    constructor
    · intro h
      have h' := roundHalfEven_le _ _ ((div_le_iff₀ hu).mpr h)
      exact mul_le_mul_of_nonneg_right (by exact_mod_cast h') (le_of_lt hu)
    · intro h
      have h' := le_roundHalfEven _ _ ((le_div_iff₀ hu).mpr h)
      exact mul_le_mul_of_nonneg_right (by exact_mod_cast h') (le_of_lt hu)

theorem roundDouble_of_grid (x : ℚ) (q k : ℤ) (hq : -1074 ≤ q) (hlt : |x| < 2 ^ (q + 53))
    (hx : x = (k : ℚ) * 2 ^ q) : roundDouble x = x := by
  obtain ⟨h1, h2⟩ := roundDouble_grid x q k hq hlt
  exact le_antisymm (by rw [hx] at h1 ⊢; exact h1 le_rfl) (by rw [hx] at h2 ⊢; exact h2 le_rfl)

theorem roundDouble_binade (x : ℚ) (e : ℤ) (he : -1022 ≤ e) (h1 : (2 : ℚ) ^ e ≤ |x|)
    (h2 : |x| < 2 ^ (e + 1)) :
    roundDouble x = (roundHalfEven (x / 2 ^ (e - 52)) : ℚ) * 2 ^ (e - 52) := by
  have hx : x ≠ 0 := by
    intro h
    rw [h, abs_zero] at h1
    exact absurd h1 (not_le.mpr (zpow_pos (by norm_num) e))
  rw [roundDouble_of_ne x hx, log_two_eq |x| e h1 h2, max_eq_left he]

theorem double_lt_one (r : ℚ) (h0 : 0 ≤ r) (h1 : r < 1) (hd : roundDouble r = r) :
    r ≤ 1 - 1 / 2 ^ 53 := by
  by_cases hhalf : r < 1 / 2
  · have : (1 : ℚ) / 2 ≤ 1 - 1 / 2 ^ 53 := by norm_num
    linarith
  · have habs : |r| = r := abs_of_nonneg h0
    have hb := roundDouble_binade r (-1) (by norm_num)
      (by rw [habs]; norm_num at hhalf ⊢; linarith) (by rw [habs]; simpa using h1)
    rw [hd] at hb
    have hu : ((2 : ℚ) ^ ((-1 : ℤ) - 52)) = 1 / 2 ^ 53 := by norm_num [zpow_neg]
    rw [hu] at hb
    have hk : roundHalfEven (r / (1 / 2 ^ 53)) ≤ 2 ^ 53 - 1 := by
      have hlt : ((roundHalfEven (r / (1 / 2 ^ 53)) : ℤ) : ℚ) < ((2 ^ 53 : ℤ) : ℚ) := by
        have : ((roundHalfEven (r / (1 / 2 ^ 53)) : ℤ) : ℚ) * (1 / 2 ^ 53) < 1 := by
          rw [← hb]; exact h1
        push_cast
        have h53 : (0 : ℚ) < 2 ^ 53 := by norm_num
        calc ((roundHalfEven (r / (1 / 2 ^ 53)) : ℤ) : ℚ)
            = ((roundHalfEven (r / (1 / 2 ^ 53)) : ℤ) : ℚ) * (1 / 2 ^ 53) * 2 ^ 53 := by
              field_simp
          _ < 1 * 2 ^ 53 := by exact mul_lt_mul_of_pos_right this h53
          _ = 2 ^ 53 := one_mul _
      have := Int.cast_lt.mp hlt
      omega
    have hk' : ((roundHalfEven (r / (1 / 2 ^ 53)) : ℤ) : ℚ) ≤ 2 ^ 53 - 1 := by
      exact_mod_cast hk
    rw [hb]
    calc ((roundHalfEven (r / (1 / 2 ^ 53)) : ℤ) : ℚ) * (1 / 2 ^ 53)
        ≤ (2 ^ 53 - 1) * (1 / 2 ^ 53) := mul_le_mul_of_nonneg_right hk' (by norm_num)
      _ = 1 - 1 / 2 ^ 53 := by norm_num

theorem product_nonneg (r : ℚ) (h0 : 0 ≤ r) (h1 : r < 1) : 0 ≤ roundDouble (r * 900000) := by
  have hp0 : 0 ≤ r * 900000 := by positivity
  have habs : |r * 900000| < 2 ^ ((0 : ℤ) + 53) := by
    rw [abs_of_nonneg hp0]; norm_num; nlinarith
  have := (roundDouble_grid (r * 900000) 0 0 (by norm_num) habs).2 (by simpa using hp0)
  simpa using this

theorem product_le (r : ℚ) (h0 : 0 ≤ r) (h1 : r ≤ 1 - 1 / 2 ^ 53) :
    roundDouble (r * 900000) ≤ 900000 - 1 / 2 ^ 33 := by
  have hp0 : 0 ≤ r * 900000 := by positivity
  have hr1 : r < 1 := lt_of_le_of_lt h1 (by norm_num)
  by_cases hlow : r * 900000 < 2 ^ 19
  · have habs : |r * 900000| < 2 ^ ((19 : ℤ) + 53) := by
      rw [abs_of_nonneg hp0]; norm_num; nlinarith
    have := (roundDouble_grid (r * 900000) 19 1 (by norm_num) habs).1
      (by norm_num; norm_num at hlow; linarith)
    norm_num at this ⊢
    linarith
  · have hb := roundDouble_binade (r * 900000) 19 (by norm_num)
      (by rw [abs_of_nonneg hp0]; norm_num; norm_num at hlow; linarith)
      (by rw [abs_of_nonneg hp0]; norm_num; nlinarith)
    have hu : ((2 : ℚ) ^ ((19 : ℤ) - 52)) = 1 / 2 ^ 33 := by norm_num [zpow_neg]
    rw [hu] at hb
    have hk := roundHalfEven_le_of_lt_half (r * 900000 / (1 / 2 ^ 33)) (900000 * 2 ^ 33 - 1)
      (by
        rw [div_lt_iff₀ (by norm_num)]
        push_cast
        norm_num
        norm_num at h1
        linarith)
    have hk' : ((roundHalfEven (r * 900000 / (1 / 2 ^ 33)) : ℤ) : ℚ) ≤ 900000 * 2 ^ 33 - 1 := by
      exact_mod_cast hk
    rw [hb]
    calc ((roundHalfEven (r * 900000 / (1 / 2 ^ 33)) : ℤ) : ℚ) * (1 / 2 ^ 33)
        ≤ (900000 * 2 ^ 33 - 1) * (1 / 2 ^ 33) := mul_le_mul_of_nonneg_right hk' (by norm_num)
      _ = 900000 - 1 / 2 ^ 33 := by norm_num

/-- The bounds of the number whose floor `generateOtp` prints. -/
theorem sum_bounds (r : ℚ) (h0 : 0 ≤ r) (h1 : r < 1) (hd : roundDouble r = r) :
    100000 ≤ roundDouble (100000 + roundDouble (r * 900000)) ∧
    roundDouble (100000 + roundDouble (r * 900000)) ≤ 1000000 - 1 / 2 ^ 33 := by
  have hlo := product_nonneg r h0 h1
  have hhi := product_le r h0 (double_lt_one r h0 h1 hd)
  have hs0 : 0 ≤ 100000 + roundDouble (r * 900000) := by linarith
  constructor
  · have habs : |100000 + roundDouble (r * 900000)| < 2 ^ ((0 : ℤ) + 53) := by
      rw [abs_of_nonneg hs0]; norm_num; norm_num at hhi; linarith
    have := (roundDouble_grid (100000 + roundDouble (r * 900000)) 0 100000 (by norm_num)
      habs).2 (by norm_num; linarith)
    norm_num at this
    exact this
  · have habs : |100000 + roundDouble (r * 900000)| < 2 ^ ((-33 : ℤ) + 53) := by
      rw [abs_of_nonneg hs0]; norm_num; norm_num at hhi; linarith
    have := (roundDouble_grid (100000 + roundDouble (r * 900000)) (-33) (1000000 * 2 ^ 33 - 1)
      (by norm_num) habs).1 (by
        push_cast
        norm_num [zpow_neg]
        norm_num at hhi
        linarith)
    have he : (((1000000 * 2 ^ 33 - 1 : ℤ) : ℚ)) * 2 ^ (-33 : ℤ) = 1000000 - 1 / 2 ^ 33 := by
      push_cast
      norm_num [zpow_neg]
    rw [he] at this
    exact this

/-- The printed integer is the floor of the exact value or one more. -/
theorem floor_near_exact (r : ℚ) (h0 : 0 ≤ r) (h1 : r < 1) :
    Int.floor ((100000 : ℚ) + r * 900000) ≤
        Int.floor (roundDouble (100000 + roundDouble (r * 900000))) ∧
    Int.floor (roundDouble (100000 + roundDouble (r * 900000))) ≤
        Int.floor ((100000 : ℚ) + r * 900000) + 1 := by
  have hp0 : 0 ≤ r * 900000 := by positivity
  have hN1 : ((⌊(100000 : ℚ) + r * 900000⌋ : ℤ) : ℚ) ≤ 100000 + r * 900000 := Int.floor_le _
  have hN2 : (100000 : ℚ) + r * 900000 < ⌊(100000 : ℚ) + r * 900000⌋ + 1 :=
    Int.lt_floor_add_one _
  have hNlo : (100000 : ℤ) ≤ ⌊(100000 : ℚ) + r * 900000⌋ := by
    rw [Int.le_floor]; push_cast; linarith
  have hNhi : ⌊(100000 : ℚ) + r * 900000⌋ < (1000000 : ℤ) := by
    rw [Int.floor_lt]; push_cast; nlinarith
  have hNlo' : (100000 : ℚ) ≤ ((⌊(100000 : ℚ) + r * 900000⌋ : ℤ) : ℚ) := by exact_mod_cast hNlo
  have hNhi' : ((⌊(100000 : ℚ) + r * 900000⌋ : ℤ) : ℚ) < 1000000 := by exact_mod_cast hNhi
  have habs : |r * 900000| < 2 ^ ((0 : ℤ) + 53) := by
    rw [abs_of_nonneg hp0]; norm_num; nlinarith
  have hg1 := roundDouble_grid (r * 900000) 0 (⌊(100000 : ℚ) + r * 900000⌋ - 100000)
    (by norm_num) habs
  have hg2 := roundDouble_grid (r * 900000) 0 (⌊(100000 : ℚ) + r * 900000⌋ + 1 - 100000)
    (by norm_num) habs
  have hplo := hg1.2 (by push_cast; simp only [zpow_zero, mul_one]; linarith)
  have hphi := hg2.1 (by push_cast; simp only [zpow_zero, mul_one]; linarith)
  push_cast at hplo hphi
  simp only [zpow_zero, mul_one] at hplo hphi
  have hs0 : 0 ≤ 100000 + roundDouble (r * 900000) := by linarith
  have habs2 : |100000 + roundDouble (r * 900000)| < 2 ^ ((0 : ℤ) + 53) := by
    rw [abs_of_nonneg hs0]; norm_num; linarith
  have hg3 := roundDouble_grid (100000 + roundDouble (r * 900000)) 0
    ⌊(100000 : ℚ) + r * 900000⌋ (by norm_num) habs2
  have hg4 := roundDouble_grid (100000 + roundDouble (r * 900000)) 0
    (⌊(100000 : ℚ) + r * 900000⌋ + 1) (by norm_num) habs2
  have hslo := hg3.2 (by simp only [zpow_zero, mul_one]; linarith)
  have hshi := hg4.1 (by push_cast; simp only [zpow_zero, mul_one]; linarith)
  simp only [zpow_zero, mul_one] at hslo hshi
  constructor
  · exact Int.le_floor.mpr hslo
  · have : ⌊roundDouble (100000 + roundDouble (r * 900000))⌋ ≤
        ⌊((⌊(100000 : ℚ) + r * 900000⌋ + 1 : ℤ) : ℚ)⌋ := Int.floor_mono hshi
    rwa [Int.floor_intCast] at this

/-- A dyadic number with a significand below `2 ^ 53` and at most 1074 binary
places is a double. -/
theorem roundDouble_dyadic (x : ℚ) (k : ℤ) (j : ℕ) (hj : j ≤ 1074) (hk : |k| < 2 ^ 53)
    (hx : x = (k : ℚ) / 2 ^ j) : roundDouble x = x := by
  have hx' : x = (k : ℚ) * 2 ^ (-(j : ℤ)) := by
    rw [hx, zpow_neg, zpow_natCast, div_eq_mul_inv]
  refine roundDouble_of_grid x (-(j : ℤ)) k (by omega) ?_ hx'
  have hk' : |(k : ℚ)| < 2 ^ 53 := by exact_mod_cast hk
  have h2 : (0 : ℚ) < 2 ^ (-(j : ℤ)) := zpow_pos (by norm_num) _
  rw [hx', abs_mul, abs_of_pos h2, add_comm, zpow_add₀ (by norm_num : (2 : ℚ) ≠ 0)]
  exact mul_lt_mul_of_pos_right (by rw [show ((53 : ℤ)) = ((53 : ℕ) : ℤ) from rfl, zpow_natCast]; exact hk') h2

theorem floor_zero : Int.floor (roundDouble (100000 + roundDouble ((0 : ℚ) * 900000))) =
    ((100000 : ℕ) : ℤ) := by
  rw [roundDouble_dyadic (0 * 900000) 0 0 (by norm_num) (by norm_num) (by norm_num),
    roundDouble_dyadic (100000 + 0 * 900000) 100000 0 (by norm_num) (by norm_num)
      (by norm_num)]
  norm_num

theorem floor_half : Int.floor (roundDouble (100000 + roundDouble ((1 / 2 : ℚ) * 900000))) =
    ((550000 : ℕ) : ℤ) := by
  rw [roundDouble_dyadic (1 / 2 * 900000) 450000 0 (by norm_num) (by norm_num) (by norm_num),
    roundDouble_dyadic (100000 + 1 / 2 * 900000) 550000 0 (by norm_num) (by norm_num)
      (by norm_num)]
  norm_num

theorem floor_tiny :
    Int.floor (roundDouble (100000 + roundDouble ((1 / 2097152 : ℚ) * 900000))) =
      ((100000 : ℕ) : ℤ) := by
  rw [roundDouble_dyadic (1 / 2097152 * 900000) 900000 21 (by norm_num) (by norm_num)
      (by norm_num),
    roundDouble_dyadic (100000 + 1 / 2097152 * 900000) 209716100000 21 (by norm_num)
      (by norm_num) (by norm_num)]
  rw [Int.floor_eq_iff]
  norm_num

theorem product_rounds_up :
    roundDouble ((2251797311685455 / 2251799813685248 : ℚ) * 900000) = 899999 := by
  have hb := roundDouble_binade ((2251797311685455 / 2251799813685248 : ℚ) * 900000) 19
    (by norm_num) (by rw [abs_of_nonneg (by norm_num)]; norm_num)
    (by rw [abs_of_nonneg (by norm_num)]; norm_num)
  have hu : ((2 : ℚ) ^ ((19 : ℤ) - 52)) = 1 / 2 ^ 33 := by norm_num [zpow_neg]
  rw [hu] at hb
  have hk : roundHalfEven ((2251797311685455 / 2251799813685248 : ℚ) * 900000 / (1 / 2 ^ 33)) =
      899999 * 2 ^ 33 := by
    apply le_antisymm
    · exact roundHalfEven_le_of_lt_half _ _ (by push_cast; norm_num)
    · exact le_roundHalfEven_of_gt_half _ _ (by push_cast; norm_num)
  rw [hb, hk]
  push_cast
  norm_num

theorem floor_rounds_up :
    Int.floor (roundDouble (100000 +
      roundDouble ((2251797311685455 / 2251799813685248 : ℚ) * 900000))) =
      ((999999 : ℕ) : ℤ) ∧
    Int.floor ((100000 : ℚ) + (2251797311685455 / 2251799813685248 : ℚ) * 900000) = 999998 := by
  constructor
  · rw [product_rounds_up,
      roundDouble_dyadic (100000 + 899999) 999999 0 (by norm_num) (by norm_num) (by norm_num)]
    norm_num
  · rw [Int.floor_eq_iff]
    norm_num

/-! ## The generated code -/

/-- The floor taken by `generateOtp` is a natural number of the six-digit
range. -/
theorem floor_range (r : ℚ) (h0 : 0 ≤ r) (h1 : r < 1) (hd : roundDouble r = r) :
    ∃ n : ℕ, Int.floor (roundDouble (100000 + roundDouble (r * 900000))) = (n : ℤ) ∧
      100000 ≤ n ∧ n ≤ 999999 := by
  obtain ⟨hlo', hhi'⟩ := sum_bounds r h0 h1 hd
  have hlo : (100000 : ℤ) ≤ ⌊roundDouble (100000 + roundDouble (r * 900000))⌋ := by
    rw [Int.le_floor]; push_cast; exact hlo'
  have hhi : ⌊roundDouble (100000 + roundDouble (r * 900000))⌋ < (1000000 : ℤ) := by
    rw [Int.floor_lt]; push_cast
    have : (1000000 : ℚ) - 1 / 2 ^ 33 < 1000000 := by norm_num
    linarith
  refine ⟨⌊roundDouble (100000 + roundDouble (r * 900000))⌋.toNat, ?_, ?_, ?_⟩ <;> omega

/-- The characters of a generated code. -/
theorem generateOtp_data (r : ℚ) (n : ℕ)
    (hn : Int.floor (roundDouble (100000 + roundDouble (r * 900000))) = (n : ℤ))
    (h1 : 100000 ≤ n) (h2 : n ≤ 999999) :
    (generateOtp r).data =
      [Nat.digitChar (n / 100000 % 10), Nat.digitChar (n / 10000 % 10),
       Nat.digitChar (n / 1000 % 10), Nat.digitChar (n / 100 % 10),
       Nat.digitChar (n / 10 % 10), Nat.digitChar (n % 10)] := by
  have h : generateOtp r = Nat.repr n := by
    unfold generateOtp
    rw [hn]
    rfl
  rw [h]
  show Nat.toDigits 10 n = _
  exact toDigits_six n h1 (by omega)

theorem generateOtp_length (r : ℚ) (h0 : 0 ≤ r) (h1 : r < 1) (hd : roundDouble r = r) :
    (generateOtp r).length = 6 := by
  obtain ⟨n, hn, hlo, hhi⟩ := floor_range r h0 h1 hd
  show (generateOtp r).data.length = 6
  rw [generateOtp_data r n hn hlo hhi]
  rfl

theorem generateOtp_ne_empty (r : ℚ) (h0 : 0 ≤ r) (h1 : r < 1) (hd : roundDouble r = r) :
    generateOtp r ≠ "" := by
  intro h
  have := generateOtp_length r h0 h1 hd
  rw [h] at this
  exact absurd this (by decide)

theorem generateOtp_all_digits (r : ℚ) (h0 : 0 ≤ r) (h1 : r < 1) (hd : roundDouble r = r) :
    ∀ c ∈ (generateOtp r).data, c.isDigit = true := by
  obtain ⟨n, hn, hlo, hhi⟩ := floor_range r h0 h1 hd
  intro c hc
  rw [generateOtp_data r n hn hlo hhi] at hc
  simp only [List.mem_cons, List.mem_singleton, List.not_mem_nil, or_false] at hc
  rcases hc with h | h | h | h | h | h <;> rw [h] <;>
    exact digitChar_isDigit _ (Nat.mod_lt _ (by decide))

theorem generateOtp_zero : generateOtp 0 = "100000" := by
  apply String.ext
  rw [generateOtp_data 0 100000 floor_zero (by decide) (by decide)]
  rfl

theorem generateOtp_tiny : generateOtp (1 / 2097152) = "100000" := by
  apply String.ext
  rw [generateOtp_data (1 / 2097152) 100000 floor_tiny (by decide) (by decide)]
  rfl

theorem generateOtp_half : generateOtp (1 / 2) = "550000" := by
  apply String.ext
  rw [generateOtp_data (1 / 2) 550000 floor_half (by decide) (by decide)]
  rfl

theorem generateOtp_rounds_up :
    generateOtp (2251797311685455 / 2251799813685248) = "999999" := by
  apply String.ext
  rw [generateOtp_data (2251797311685455 / 2251799813685248) 999999 floor_rounds_up.1
    (by decide) (by decide)]
  rfl

/-- The value of `Math.random()` in an environment is a double. -/
theorem SendEnv.random_double (env : SendEnv) : roundDouble env.random = env.random := by
  obtain ⟨m, k, hk, hm, hr⟩ := env.random_dyadic
  exact roundDouble_dyadic env.random (m : ℤ) k hk
    (by rw [abs_of_nonneg (by positivity)]; exact_mod_cast hm) (by rw [hr]; push_cast; rfl)

/-- C8, as stated, fails: `2251797311685455 / 2 ^ 51` is a double of the interval
from 0 to 1 for which `generateOtp` returns `999999`, while the floor of the exact
value of `100000 + r * 900000` is `999998`; the product is rounded up to the
double `899999`. -/
theorem generateOtp_not_exact_floor :
    (0 : ℚ) ≤ 2251797311685455 / 2251799813685248 ∧
    (2251797311685455 / 2251799813685248 : ℚ) < 1 ∧
    roundDouble (2251797311685455 / 2251799813685248) =
      2251797311685455 / 2251799813685248 ∧
    roundDouble ((2251797311685455 / 2251799813685248 : ℚ) * 900000) = 899999 ∧
    generateOtp (2251797311685455 / 2251799813685248) = "999999" ∧
    Int.floor ((100000 : ℚ) + 2251797311685455 / 2251799813685248 * 900000) = 999998 ∧
    generateOtp (2251797311685455 / 2251799813685248) ≠
      toString (Int.floor ((100000 : ℚ) + 2251797311685455 / 2251799813685248 * 900000)) := by
  refine ⟨by norm_num, by norm_num, ?_, product_rounds_up, generateOtp_rounds_up,
    floor_rounds_up.2, ?_⟩
  · exact roundDouble_dyadic _ 2251797311685455 51 (by norm_num) (by norm_num) (by norm_num)
  · rw [generateOtp_rounds_up, floor_rounds_up.2]
    decide

/-- C8, amended: for every double `r` with `0 ≤ r < 1`, `generateOtp` returns the
decimal string of the integer `floor (100000 + r * 900000)` as computed in double
precision, which is the floor of the exact value or one more, and lies between
100000 and 999999; the result has exactly 6 characters, all ASCII digits, is not
empty, and does not start with the digit zero.  Both endpoints 100000 and 999999
are attained. -/
theorem generateOtp_six_digits (r : ℚ) (h0 : 0 ≤ r) (h1 : r < 1) (hd : roundDouble r = r) :
    (∃ n : ℕ, Int.floor (roundDouble (100000 + roundDouble (r * 900000))) = (n : ℤ) ∧
      ((n : ℤ) = Int.floor ((100000 : ℚ) + r * 900000) ∨
        (n : ℤ) = Int.floor ((100000 : ℚ) + r * 900000) + 1) ∧
      100000 ≤ n ∧ n ≤ 999999 ∧
      (generateOtp r).data = ((Nat.digits 10 n).reverse).map Nat.digitChar) ∧
    (generateOtp r).length = 6 ∧
    (∀ c ∈ (generateOtp r).data, c.isDigit = true) ∧
    generateOtp r ≠ "" ∧
    (generateOtp r).data.head? ≠ some '0' ∧
    (∃ r0 : ℚ, 0 ≤ r0 ∧ r0 < 1 ∧ roundDouble r0 = r0 ∧ generateOtp r0 = "100000") ∧
    (∃ r1 : ℚ, 0 ≤ r1 ∧ r1 < 1 ∧ roundDouble r1 = r1 ∧ generateOtp r1 = "999999") := by
  obtain ⟨n, hn, hlo, hhi⟩ := floor_range r h0 h1 hd
  obtain ⟨hge, hle⟩ := floor_near_exact r h0 h1
  have hdata := generateOtp_data r n hn hlo hhi
  refine ⟨⟨n, hn, ?_, hlo, hhi, ?_⟩, generateOtp_length r h0 h1 hd,
    generateOtp_all_digits r h0 h1 hd, generateOtp_ne_empty r h0 h1 hd, ?_,
    ⟨0, le_refl 0, by norm_num, ?_, generateOtp_zero⟩,
    ⟨2251797311685455 / 2251799813685248, by norm_num, by norm_num, ?_,
      generateOtp_rounds_up⟩⟩
  · rw [hn] at hge hle
    omega
  · rw [hdata, digits_six n hlo (by omega)]
    rfl
  · rw [hdata]
    simp only [List.head?_cons, ne_eq, Option.some.injEq]
    exact digitChar_ne_zero _ (by omega) (Nat.mod_lt _ (by decide))
  · exact roundDouble_dyadic 0 0 0 (by norm_num) (by norm_num) (by norm_num)
  · exact roundDouble_dyadic _ 2251797311685455 51 (by norm_num) (by norm_num) (by norm_num)

/-- The code drawn for `r = 1/2` is `550000`. -/
theorem generateOtp_six_digits_witness :
    (generateOtp (1 / 2)).length = 6 ∧ generateOtp (1 / 2) ≠ "" :=
  ⟨(generateOtp_six_digits (1 / 2) (by norm_num) (by norm_num)
      (roundDouble_dyadic (1 / 2) 1 1 (by norm_num) (by norm_num) (by norm_num))).2.1,
   (generateOtp_six_digits (1 / 2) (by norm_num) (by norm_num)
      (roundDouble_dyadic (1 / 2) 1 1 (by norm_num) (by norm_num) (by norm_num))).2.2.2.1⟩

/-! ## The expiration test -/

theorem isOtpExpired_some (now : Int) (t : Timestamp) :
    isOtpExpired now (some t) = decide (now - t.toDate > 300000) := by
  unfold isOtpExpired OTP_EXPIRATION_MINUTES
  simp only [decide_eq_decide]
  rw [gt_iff_lt, gt_iff_lt, lt_div_iff₀ (by norm_num)]
  norm_cast

/-- C7: `isOtpExpired` is the expiration policy.  An absent timestamp is expired;
a present timestamp `issuedAt` is expired at time `now` if and only if
`now - issuedAt` is strictly greater than 300000 ms, so that a record exactly
5 minutes old is not expired, one 5 minutes and 1 ms old is, and a timestamp in
the future is not. -/
theorem isOtpExpired_policy (now : Int) :
    isOtpExpired now none = true ∧
    (∀ issuedAt : Timestamp,
      isOtpExpired now (some issuedAt) = true ↔ now - issuedAt.toDate > 300000) ∧
    isOtpExpired now (some ⟨now - 300000⟩) = false ∧
    isOtpExpired now (some ⟨now - 300001⟩) = true ∧
    (∀ issuedAt : Timestamp, now < issuedAt.toDate →
      isOtpExpired now (some issuedAt) = false) := by
  refine ⟨rfl, ?_, ?_, ?_, ?_⟩
  · intro t
    rw [isOtpExpired_some]
    simp
  · rw [isOtpExpired_some]
    simp
  · rw [isOtpExpired_some]
    simp
  · intro t ht
    rw [isOtpExpired_some]
    simp only [decide_eq_false_iff_not, not_lt, gt_iff_lt]
    omega

/-- A timestamp one second in the future is not expired. -/
theorem isOtpExpired_policy_witness : isOtpExpired 1000 (some ⟨2000⟩) = false :=
  (isOtpExpired_policy 1000).2.2.2.2 ⟨2000⟩ (by decide)

/-! ## `verifyOtp`, case by case -/

theorem verifyOtp_absent (env : VerifyEnv) (w : World) (email code : String)
    (he : email ≠ "") (hc : code ≠ "") (hget : env.getError = none)
    (hdoc : w.store email = none) :
    verifyOtp env ⟨some email, some code⟩ w =
      (.error ⟨"internal", "No OTP found for this email"⟩, w.record (.docGet email)) := by
  simp [verifyOtp, verifyOtpTry, he, hc, hget, hdoc, Thrown.message]

theorem verifyOtp_expired (env : VerifyEnv) (w : World) (email code : String) (doc : OtpDoc)
    (he : email ≠ "") (hc : code ≠ "") (hget : env.getError = none)
    (hdoc : w.store email = some doc) (hexp : isOtpExpired env.now doc.createdAt = true) :
    verifyOtp env ⟨some email, some code⟩ w =
      (.error ⟨"internal", "OTP expired, please request again"⟩,
        w.record (.docGet email)) := by
  simp [verifyOtp, verifyOtpTry, he, hc, hget, hdoc, hexp, Thrown.message]

theorem verifyOtp_mismatch (env : VerifyEnv) (w : World) (email code : String) (doc : OtpDoc)
    (he : email ≠ "") (hc : code ≠ "") (hget : env.getError = none)
    (hdoc : w.store email = some doc) (hexp : isOtpExpired env.now doc.createdAt = false)
    (hne : code ≠ doc.otp) :
    verifyOtp env ⟨some email, some code⟩ w =
      (.error ⟨"internal", "Invalid OTP"⟩, w.record (.docGet email)) := by
  simp [verifyOtp, verifyOtpTry, he, hc, hget, hdoc, hexp, hne, Thrown.message]

theorem verifyOtp_match (env : VerifyEnv) (w : World) (email code : String) (doc : OtpDoc)
    (he : email ≠ "") (hc : code ≠ "") (hget : env.getError = none)
    (hdel : env.deleteError = none)
    (hdoc : w.store email = some doc) (hexp : isOtpExpired env.now doc.createdAt = false)
    (heq : code = doc.otp) :
    verifyOtp env ⟨some email, some code⟩ w =
      (.ok verifiedOk,
        ((w.record (.docGet email)).record (.docDelete email)).docDelete email) := by
  subst heq
  simp [verifyOtp, verifyOtpTry, he, hc, hget, hdel, hdoc, hexp, verifiedOk]

theorem verifyOtpTry_absent (env : VerifyEnv) (w : World) (email code : String)
    (hget : env.getError = none) (hdoc : w.store email = none) :
    (verifyOtpTry env email code w).1 =
      .error (.https ⟨"not-found", "No OTP found for this email"⟩) := by
  simp [verifyOtpTry, hget, hdoc]

theorem verifyOtpTry_expired (env : VerifyEnv) (w : World) (email code : String) (doc : OtpDoc)
    (hget : env.getError = none) (hdoc : w.store email = some doc)
    (hexp : isOtpExpired env.now doc.createdAt = true) :
    (verifyOtpTry env email code w).1 =
      .error (.https ⟨"deadline-exceeded", "OTP expired, please request again"⟩) := by
  simp [verifyOtpTry, hget, hdoc, hexp]

theorem verifyOtpTry_mismatch (env : VerifyEnv) (w : World) (email code : String) (doc : OtpDoc)
    (hget : env.getError = none) (hdoc : w.store email = some doc)
    (hexp : isOtpExpired env.now doc.createdAt = false) (hne : code ≠ doc.otp) :
    (verifyOtpTry env email code w).1 =
      .error (.https ⟨"permission-denied", "Invalid OTP"⟩) := by
  simp [verifyOtpTry, hget, hdoc, hexp, hne]

theorem verifyOtp_get_rejected (env : VerifyEnv) (w : World) (email code m : String)
    (he : email ≠ "") (hc : code ≠ "") (hget : env.getError = some m) :
    verifyOtp env ⟨some email, some code⟩ w =
      (.error ⟨"internal", m⟩, w.record (.docGet email)) := by
  simp [verifyOtp, verifyOtpTry, he, hc, hget, Thrown.message]

theorem verifyOtp_invalid (env : VerifyEnv) (data : VerifyData) (w : World)
    (h : data.email = none ∨ data.email = some "" ∨ data.otp = none ∨ data.otp = some "") :
    verifyOtp env data w = (.error ⟨"invalid-argument", "Email and OTP required"⟩, w) := by
  rcases data with ⟨_ | email, _ | otp⟩
  · rfl
  · rfl
  · rfl
  · have h' : email = "" ∨ otp = "" := by simpa using h
    simp [verifyOtp, h']

/-- Whatever the environment, `verifyOtp` does not succeed on a code that differs
from the stored one. -/
theorem verifyOtp_wrong_code_fails (env : VerifyEnv) (w : World) (email code : String)
    (doc : OtpDoc) (hdoc : w.store email = some doc) (hne : code ≠ doc.otp) :
    (verifyOtp env ⟨some email, some code⟩ w).1.isOk = false := by
  by_cases he : email = ""
  · rw [verifyOtp_invalid env _ w (Or.inr (Or.inl (by rw [he])))]; rfl
  by_cases hc : code = ""
  · rw [verifyOtp_invalid env _ w (Or.inr (Or.inr (Or.inr (by rw [hc]))))]; rfl
  cases hget : env.getError with
  | some m => rw [verifyOtp_get_rejected env w email code m he hc hget]; rfl
  | none =>
    cases hexp : isOtpExpired env.now doc.createdAt with
    | true => rw [verifyOtp_expired env w email code doc he hc hget hdoc hexp]; rfl
    | false => rw [verifyOtp_mismatch env w email code doc he hc hget hdoc hexp hne]; rfl

/-- A `verifyOtp` that fails even when its delete call is served fails for a
reason other than the delete: it returns the same error whatever the outcome of
the delete would be, and the store it was given. -/
theorem verifyOtp_fail_not_by_delete (env : VerifyEnv) (data : VerifyData) (w : World)
    (hfail : (verifyOtp { env with deleteError := none } data w).1.isOk = false) :
    (verifyOtp env data w).1.isOk = false ∧ (verifyOtp env data w).2.store = w.store := by
  rcases data with ⟨_ | email, _ | otp⟩
  · exact ⟨rfl, rfl⟩
  · exact ⟨rfl, rfl⟩
  · exact ⟨rfl, rfl⟩
  · by_cases he : email = ""
    · rw [verifyOtp_invalid env _ w (Or.inr (Or.inl (by rw [he])))]
      exact ⟨rfl, rfl⟩
    by_cases hc : otp = ""
    · rw [verifyOtp_invalid env _ w (Or.inr (Or.inr (Or.inr (by rw [hc]))))]
      exact ⟨rfl, rfl⟩
    cases hget : env.getError with
    | some m =>
      rw [verifyOtp_get_rejected env w email otp m he hc hget]
      exact ⟨rfl, rfl⟩
    | none =>
      cases hdoc : w.store email with
      | none =>
        rw [verifyOtp_absent env w email otp he hc hget hdoc]
        exact ⟨rfl, rfl⟩
      | some doc =>
        cases hexp : isOtpExpired env.now doc.createdAt with
        | true =>
          rw [verifyOtp_expired env w email otp doc he hc hget hdoc hexp]
          exact ⟨rfl, rfl⟩
        | false =>
          by_cases hne : otp = doc.otp
          · rw [verifyOtp_match { env with deleteError := none } w email otp doc he hc hget rfl
              hdoc hexp hne] at hfail
            exact absurd hfail (by simp [Except.isOk, Except.toBool])
          · rw [verifyOtp_mismatch env w email otp doc he hc hget hdoc hexp hne]
            exact ⟨rfl, rfl⟩

/-! ## `sendOtp`, case by case -/

theorem sendOtp_invalid (env : SendEnv) (data : SendData) (w : World)
    (h : data.email = none ∨ data.email = some "") :
    sendOtp env data w = (.error ⟨"invalid-argument", "Email is required"⟩, w) := by
  rcases data with ⟨_ | email⟩
  · rfl
  · have h' : email = "" := by simpa using h
    simp [sendOtp, h']

theorem sendOtp_accepted (env : SendEnv) (w : World) (e : String) (he : e ≠ "")
    (hset : env.setFails = false) (hmail : env.sendMailFails = false) :
    sendOtp env ⟨some e⟩ w =
      (.ok ⟨"OTP sent successfully!"⟩,
        ((((w.record (.docSet e)).docSet e
          ⟨generateOtp env.random, some ⟨env.serverTime⟩⟩).record (.sendMail e)).deliver
            (otpMail e (generateOtp env.random)))) := by
  simp [sendOtp, sendOtpTry, he, hset, hmail]

theorem sendOtp_mail_rejected (env : SendEnv) (w : World) (e : String) (he : e ≠ "")
    (hset : env.setFails = false) (hmail : env.sendMailFails = true) :
    sendOtp env ⟨some e⟩ w =
      (.error ⟨"internal", "Failed to send OTP"⟩,
        ((w.record (.docSet e)).docSet e
          ⟨generateOtp env.random, some ⟨env.serverTime⟩⟩).record (.sendMail e)) := by
  simp [sendOtp, sendOtpTry, he, hset, hmail]

theorem sendOtp_set_rejected (env : SendEnv) (w : World) (e : String) (he : e ≠ "")
    (hset : env.setFails = true) :
    sendOtp env ⟨some e⟩ w =
      (.error ⟨"internal", "Failed to send OTP"⟩, w.record (.docSet e)) := by
  simp [sendOtp, sendOtpTry, he, hset]

/-- A `sendOtp` that succeeds had both collaborators accept. -/
theorem sendOtp_ok_accepts (env : SendEnv) (w : World) (e : String) (he : e ≠ "")
    (h : (sendOtp env ⟨some e⟩ w).1.isOk = true) :
    env.setFails = false ∧ env.sendMailFails = false := by
  cases hset : env.setFails with
  | true =>
    rw [sendOtp_set_rejected env w e he hset] at h
    exact absurd h (by simp [Except.isOk, Except.toBool])
  | false =>
    cases hmail : env.sendMailFails with
    | true =>
      rw [sendOtp_mail_rejected env w e he hset hmail] at h
      exact absurd h (by simp [Except.isOk, Except.toBool])
    | false => exact ⟨rfl, rfl⟩

theorem code_infix_otpHtml (otp : String) : otp.data <:+: (otpHtml otp).data := by
  unfold otpHtml
  simp only [String.data_append, List.append_assoc]
  iterate 5 refine List.IsInfix.trans ?_ (List.suffix_append _ _).isInfix
  exact List.infix_append' _ _ _

theorem isOtpExpired_within (now t : Int) (h : now - t ≤ 300000) :
    isOtpExpired now (some ⟨t⟩) = false := by
  rw [isOtpExpired_some]
  simp only [decide_eq_false_iff_not, not_lt, gt_iff_lt]
  exact h

/-! ## The contract of `verifyOtp` -/

/-- C1: for every store, non-empty email and non-empty submitted code, when the
store read and the store delete are not rejected, `verifyOtp` returns the
success value `{verified: true, ...}` if and only if a document for the email
exists, `isOtpExpired` is false for its `createdAt` at the time of the call, and
the submitted code equals the stored one.  Every success is that value, and the
call does not succeed for an absent document, an expired document or a wrong
code. -/
theorem verifyOtp_succeeds_iff (env : VerifyEnv) (w : World) (email code : String)
    (he : email ≠ "") (hc : code ≠ "")
    (hget : env.getError = none) (hdel : env.deleteError = none) :
    ((verifyOtp env ⟨some email, some code⟩ w).1 = .ok verifiedOk ↔
      ∃ doc, w.store email = some doc ∧ isOtpExpired env.now doc.createdAt = false ∧
        code = doc.otp) ∧
    ((verifyOtp env ⟨some email, some code⟩ w).1.isOk = true →
      (verifyOtp env ⟨some email, some code⟩ w).1 = .ok verifiedOk) ∧
    (w.store email = none →
      (verifyOtp env ⟨some email, some code⟩ w).1.isOk = false) ∧
    (∀ doc, w.store email = some doc → isOtpExpired env.now doc.createdAt = true →
      (verifyOtp env ⟨some email, some code⟩ w).1.isOk = false) ∧
    (∀ doc, w.store email = some doc → code ≠ doc.otp →
      (verifyOtp env ⟨some email, some code⟩ w).1.isOk = false) := by
  cases hdoc : w.store email with
  | none =>
    rw [verifyOtp_absent env w email code he hc hget hdoc]
    simp [Except.isOk, Except.toBool]
  | some doc =>
    cases hexp : isOtpExpired env.now doc.createdAt with
    | true =>
      rw [verifyOtp_expired env w email code doc he hc hget hdoc hexp]
      simp [Except.isOk, Except.toBool, hexp]
    | false =>
      by_cases heq : code = doc.otp
      · rw [verifyOtp_match env w email code doc he hc hget hdel hdoc hexp heq]
        simp [Except.isOk, Except.toBool, hexp, heq]
      · rw [verifyOtp_mismatch env w email code doc he hc hget hdoc hexp heq]
        simp [Except.isOk, Except.toBool, hexp, heq]

/-- The one document of the store is unexpired and holds the submitted code: the
call succeeds. -/
theorem verifyOtp_succeeds_iff_witness :
    (verifyOtp (VerifyEnv.served 1000) ⟨some "a@b.com", some "123456"⟩
      (World.single "a@b.com" "123456" 0)).1 = .ok verifiedOk :=
  (verifyOtp_succeeds_iff (VerifyEnv.served 1000) (World.single "a@b.com" "123456" 0)
    "a@b.com" "123456" (by decide) (by decide) rfl rfl).1.2
    ⟨⟨"123456", some ⟨0⟩⟩, by simp [World.single, World.docSet],
      isOtpExpired_within 1000 0 (by decide), rfl⟩

/-- C2: round trip of issue and verify.  When `sendOtp` succeeds for a non-empty
email `e`, exactly one mail was handed to the transporter, it is addressed to `e`
and its body embeds the code, the code is the 6-digit code stored for `e`, and a
following `verifyOtp` with that code, made while `now - createdAt` is at most
5 minutes and served by the store, returns the success value and leaves no
document for `e`. -/
theorem sendOtp_verifyOtp_round_trip (env : SendEnv) (w : World) (e : String) (he : e ≠ "")
    (hs : (sendOtp env ⟨some e⟩ w).1.isOk = true)
    (now : Int) (hnow : now - env.serverTime ≤ 300000) :
    (sendOtp env ⟨some e⟩ w).2.outbox = w.outbox ++ [otpMail e (generateOtp env.random)] ∧
    (sendOtp env ⟨some e⟩ w).2.calls = w.calls ++ [Call.docSet e, Call.sendMail e] ∧
    (otpMail e (generateOtp env.random)).recipient = e ∧
    (generateOtp env.random).data <:+: (otpMail e (generateOtp env.random)).html.data ∧
    (sendOtp env ⟨some e⟩ w).2.store e =
      some ⟨generateOtp env.random, some ⟨env.serverTime⟩⟩ ∧
    (generateOtp env.random).length = 6 ∧
    (∀ c ∈ (generateOtp env.random).data, c.isDigit = true) ∧
    (verifyOtp (VerifyEnv.served now) ⟨some e, some (generateOtp env.random)⟩
      (sendOtp env ⟨some e⟩ w).2).1 = .ok verifiedOk ∧
    (verifyOtp (VerifyEnv.served now) ⟨some e, some (generateOtp env.random)⟩
      (sendOtp env ⟨some e⟩ w).2).2.store e = none := by
  obtain ⟨hset, hmail⟩ := sendOtp_ok_accepts env w e he hs
  have hlen := generateOtp_length env.random env.random_nonneg env.random_lt_one
    env.random_double
  have hdig := generateOtp_all_digits env.random env.random_nonneg env.random_lt_one
    env.random_double
  have hnonempty := generateOtp_ne_empty env.random env.random_nonneg env.random_lt_one
    env.random_double
  have hstore : (sendOtp env ⟨some e⟩ w).2.store e =
      some ⟨generateOtp env.random, some ⟨env.serverTime⟩⟩ := by
    rw [sendOtp_accepted env w e he hset hmail]
    simp [World.deliver, World.record, World.docSet]
  have hv := verifyOtp_match (VerifyEnv.served now) (sendOtp env ⟨some e⟩ w).2 e
    (generateOtp env.random) _ he hnonempty rfl rfl hstore
    (isOtpExpired_within now env.serverTime hnow) rfl
  refine ⟨?_, ?_, rfl, code_infix_otpHtml _, hstore, hlen, hdig, ?_, ?_⟩
  · rw [sendOtp_accepted env w e he hset hmail]
    rfl
  · rw [sendOtp_accepted env w e he hset hmail]
    simp [World.deliver, World.record, World.docSet]
  · rw [hv]
  · rw [hv]
    simp [World.docDelete]

/-- From the empty world, with `Math.random()` equal to `1/2`: the code
`550000` is mailed, stored and then accepted. -/
theorem sendOtp_verifyOtp_round_trip_witness :
    (verifyOtp (VerifyEnv.served 60000) ⟨some "a@b.com", some (generateOtp (1 / 2))⟩
      (sendOtp (envHalf 0) ⟨some "a@b.com"⟩ World.empty).2).1 = .ok verifiedOk :=
  (sendOtp_verifyOtp_round_trip (envHalf 0) World.empty "a@b.com" (by decide)
    (by rw [sendOtp_accepted (envHalf 0) World.empty "a@b.com" (by decide) rfl rfl]; rfl)
    60000 (by decide)).2.2.2.2.2.2.2.1

/-- C3: what the code does where the claim expects `not-found`.  After
`sendOtp` and one successful `verifyOtp`, the second `verifyOtp` with the same
code fails, and so does `verifyOtp` for an email that was never issued a code;
the `try` block throws `not-found` in both cases, but the error that reaches the
caller has the code `internal`. -/
theorem verifyOtp_absent_reports_internal :
    (verifyOtp (VerifyEnv.served 1000) ⟨some "a@b.com", some "100000"⟩
      (sendOtp (envZero 0) ⟨some "a@b.com"⟩ World.empty).2).1 = .ok verifiedOk ∧
    (verifyOtpTry (VerifyEnv.served 1000) "a@b.com" "100000"
      (verifyOtp (VerifyEnv.served 1000) ⟨some "a@b.com", some "100000"⟩
        (sendOtp (envZero 0) ⟨some "a@b.com"⟩ World.empty).2).2).1 =
      .error (.https ⟨"not-found", "No OTP found for this email"⟩) ∧
    (verifyOtp (VerifyEnv.served 1000) ⟨some "a@b.com", some "100000"⟩
      (verifyOtp (VerifyEnv.served 1000) ⟨some "a@b.com", some "100000"⟩
        (sendOtp (envZero 0) ⟨some "a@b.com"⟩ World.empty).2).2).1 =
      .error ⟨"internal", "No OTP found for this email"⟩ ∧
    (verifyOtp (VerifyEnv.served 1000) ⟨some "never@x.com", some "123456"⟩ World.empty).1 =
      .error ⟨"internal", "No OTP found for this email"⟩ := by
  have hw : (sendOtp (envZero 0) ⟨some "a@b.com"⟩ World.empty).2.store "a@b.com" =
      some ⟨"100000", some ⟨0⟩⟩ := by
    rw [sendOtp_accepted (envZero 0) World.empty "a@b.com" (by decide) rfl rfl]
    simp [World.deliver, World.record, World.docSet, envZero, generateOtp_zero]
  have hv := verifyOtp_match (VerifyEnv.served 1000)
    (sendOtp (envZero 0) ⟨some "a@b.com"⟩ World.empty).2 "a@b.com" "100000" _
    (by decide) (by decide) rfl rfl hw (isOtpExpired_within 1000 0 (by decide)) rfl
  have hgone : (verifyOtp (VerifyEnv.served 1000) ⟨some "a@b.com", some "100000"⟩
      (sendOtp (envZero 0) ⟨some "a@b.com"⟩ World.empty).2).2.store "a@b.com" = none := by
    rw [hv]
    simp [World.docDelete]
  refine ⟨by rw [hv], ?_, ?_, ?_⟩
  · exact verifyOtpTry_absent (VerifyEnv.served 1000) _ "a@b.com" "100000" rfl hgone
  · rw [verifyOtp_absent (VerifyEnv.served 1000) _ "a@b.com" "100000" (by decide) (by decide)
      rfl hgone]
  · rw [verifyOtp_absent (VerifyEnv.served 1000) World.empty "never@x.com" "123456"
      (by decide) (by decide) rfl rfl]

/-- C4, as stated, fails: two successive successful `sendOtp` calls for the same
email, with the random values `0` and `1/2097152`, both generate the code
`100000`, and `verifyOtp` with the first code after the second issue
succeeds. -/
theorem reissue_same_code_accepted :
    (sendOtp (envZero 0) ⟨some "a@b.com"⟩ World.empty).1.isOk = true ∧
    (sendOtp (envTiny 1000) ⟨some "a@b.com"⟩
      (sendOtp (envZero 0) ⟨some "a@b.com"⟩ World.empty).2).1.isOk = true ∧
    generateOtp (envZero 0).random = "100000" ∧
    generateOtp (envTiny 1000).random = "100000" ∧
    (verifyOtp (VerifyEnv.served 2000) ⟨some "a@b.com", some (generateOtp (envZero 0).random)⟩
      (sendOtp (envTiny 1000) ⟨some "a@b.com"⟩
        (sendOtp (envZero 0) ⟨some "a@b.com"⟩ World.empty).2).2).1 = .ok verifiedOk := by
  have h1 : (sendOtp (envZero 0) ⟨some "a@b.com"⟩ World.empty).1.isOk = true := by
    rw [sendOtp_accepted (envZero 0) World.empty "a@b.com" (by decide) rfl rfl]; rfl
  have h2 : (sendOtp (envTiny 1000) ⟨some "a@b.com"⟩
      (sendOtp (envZero 0) ⟨some "a@b.com"⟩ World.empty).2).1.isOk = true := by
    rw [sendOtp_accepted (envTiny 1000) _ "a@b.com" (by decide) rfl rfl]; rfl
  have hw : (sendOtp (envTiny 1000) ⟨some "a@b.com"⟩
      (sendOtp (envZero 0) ⟨some "a@b.com"⟩ World.empty).2).2.store "a@b.com" =
      some ⟨"100000", some ⟨1000⟩⟩ := by
    have ht : generateOtp (envTiny 1000).random = "100000" := generateOtp_tiny
    rw [sendOtp_accepted (envTiny 1000) _ "a@b.com" (by decide) rfl rfl, ht]
    simp only [World.deliver, World.record, World.docSet, if_true]
    rfl
  refine ⟨h1, h2, generateOtp_zero, generateOtp_tiny, ?_⟩
  have hz : generateOtp (envZero 0).random = "100000" := generateOtp_zero
  rw [hz, verifyOtp_match (VerifyEnv.served 2000) _ "a@b.com" "100000" _ (by decide) (by decide)
    rfl rfl hw (isOtpExpired_within 2000 1000 (by decide)) rfl]

/-- C4, amended: for every email `e` and two successive successful `sendOtp`
calls for `e` that generated different codes, the second issue overwrote the
document for `e`, and `verifyOtp` with the first code made after it never
succeeds, whatever the time of the call and the state of the store service. -/
theorem reissue_invalidates_other_code (env1 env2 : SendEnv) (venv : VerifyEnv) (w : World)
    (e : String) (he : e ≠ "")
    (h1 : (sendOtp env1 ⟨some e⟩ w).1.isOk = true)
    (h2 : (sendOtp env2 ⟨some e⟩ (sendOtp env1 ⟨some e⟩ w).2).1.isOk = true)
    (hne : generateOtp env1.random ≠ generateOtp env2.random) :
    (sendOtp env1 ⟨some e⟩ w).2.store e =
      some ⟨generateOtp env1.random, some ⟨env1.serverTime⟩⟩ ∧
    (sendOtp env2 ⟨some e⟩ (sendOtp env1 ⟨some e⟩ w).2).2.store e =
      some ⟨generateOtp env2.random, some ⟨env2.serverTime⟩⟩ ∧
    (verifyOtp venv ⟨some e, some (generateOtp env1.random)⟩
      (sendOtp env2 ⟨some e⟩ (sendOtp env1 ⟨some e⟩ w).2).2).1.isOk = false := by
  obtain ⟨hs1, hm1⟩ := sendOtp_ok_accepts env1 w e he h1
  obtain ⟨hs2, hm2⟩ := sendOtp_ok_accepts env2 _ e he h2
  have hw1 : (sendOtp env1 ⟨some e⟩ w).2.store e =
      some ⟨generateOtp env1.random, some ⟨env1.serverTime⟩⟩ := by
    rw [sendOtp_accepted env1 w e he hs1 hm1]
    simp [World.deliver, World.record, World.docSet]
  have hw2 : (sendOtp env2 ⟨some e⟩ (sendOtp env1 ⟨some e⟩ w).2).2.store e =
      some ⟨generateOtp env2.random, some ⟨env2.serverTime⟩⟩ := by
    rw [sendOtp_accepted env2 _ e he hs2 hm2]
    simp [World.deliver, World.record, World.docSet]
  exact ⟨hw1, hw2, verifyOtp_wrong_code_fails venv _ e _ _ hw2 hne⟩

/-- The codes `100000` and then `550000` are issued; the first one is refused
afterwards. -/
theorem reissue_invalidates_other_code_witness :
    (verifyOtp (VerifyEnv.served 2000) ⟨some "a@b.com", some (generateOtp (envZero 0).random)⟩
      (sendOtp (envHalf 1000) ⟨some "a@b.com"⟩
        (sendOtp (envZero 0) ⟨some "a@b.com"⟩ World.empty).2).2).1.isOk = false :=
  (reissue_invalidates_other_code (envZero 0) (envHalf 1000) (VerifyEnv.served 2000)
    World.empty "a@b.com" (by decide)
    (by rw [sendOtp_accepted (envZero 0) World.empty "a@b.com" (by decide) rfl rfl]; rfl)
    (by rw [sendOtp_accepted (envHalf 1000) _ "a@b.com" (by decide) rfl rfl]; rfl)
    (by
      show generateOtp 0 ≠ generateOtp (1 / 2)
      rw [generateOtp_zero, generateOtp_half]
      decide)).2.2

/-- C5: what the code does where the claim expects `deadline-exceeded` and
`permission-denied`.  A document created 5 minutes and 1 second before the call
is rejected even with the right code, and a document created 4 minutes and
59 seconds before the call is rejected for a wrong code; the `try` block throws
`deadline-exceeded` and `permission-denied`, but the error that reaches the
caller has the code `internal` in both cases. -/
theorem verifyOtp_rejections_report_internal :
    (verifyOtpTry (VerifyEnv.served 301000) "a@b.com" "123456"
      (World.single "a@b.com" "123456" 0)).1 =
      .error (.https ⟨"deadline-exceeded", "OTP expired, please request again"⟩) ∧
    (verifyOtp (VerifyEnv.served 301000) ⟨some "a@b.com", some "123456"⟩
      (World.single "a@b.com" "123456" 0)).1 =
      .error ⟨"internal", "OTP expired, please request again"⟩ ∧
    (verifyOtpTry (VerifyEnv.served 299000) "a@b.com" "654321"
      (World.single "a@b.com" "123456" 0)).1 =
      .error (.https ⟨"permission-denied", "Invalid OTP"⟩) ∧
    (verifyOtp (VerifyEnv.served 299000) ⟨some "a@b.com", some "654321"⟩
      (World.single "a@b.com" "123456" 0)).1 =
      .error ⟨"internal", "Invalid OTP"⟩ := by
  have hw : (World.single "a@b.com" "123456" 0).store "a@b.com" =
      some ⟨"123456", some ⟨0⟩⟩ := by
    simp [World.single, World.docSet]
  have hexp : isOtpExpired (VerifyEnv.served 301000).now (some ⟨0⟩) = true := by
    rw [isOtpExpired_some]; decide
  have hfresh : isOtpExpired (VerifyEnv.served 299000).now (some ⟨0⟩) = false :=
    isOtpExpired_within 299000 0 (by decide)
  refine ⟨?_, ?_, ?_, ?_⟩
  · exact verifyOtpTry_expired (VerifyEnv.served 301000) _ "a@b.com" "123456" _ rfl hw hexp
  · rw [verifyOtp_expired (VerifyEnv.served 301000) _ "a@b.com" "123456" _
      (by decide) (by decide) rfl hw hexp]
  · exact verifyOtpTry_mismatch (VerifyEnv.served 299000) _ "a@b.com" "654321" _ rfl hw hfresh
      (by decide)
  · rw [verifyOtp_mismatch (VerifyEnv.served 299000) _ "a@b.com" "654321" _
      (by decide) (by decide) rfl hw hfresh (by decide)]

/-- C6: `verifyOtp` deletes only on success.  Whenever the call fails for a
reason other than a rejection of the delete itself, that is, whenever it fails
even with the delete served, the store after the call is the store before it:
every document is left in place, and a later call with the stored code of an
unexpired document still succeeds. -/
theorem verifyOtp_failure_keeps_store (env : VerifyEnv) (data : VerifyData) (w : World)
    (hfail : (verifyOtp { env with deleteError := none } data w).1.isOk = false) :
    (verifyOtp env data w).1.isOk = false ∧
    (verifyOtp env data w).2.store = w.store ∧
    (∀ (email : String) (doc : OtpDoc), w.store email = some doc →
      (verifyOtp env data w).2.store email = some doc) ∧
    (∀ (email : String) (doc : OtpDoc) (later : Int), email ≠ "" → doc.otp ≠ "" →
      w.store email = some doc → isOtpExpired later doc.createdAt = false →
      (verifyOtp (VerifyEnv.served later) ⟨some email, some doc.otp⟩
        (verifyOtp env data w).2).1 = .ok verifiedOk) := by
  obtain ⟨h1, h2⟩ := verifyOtp_fail_not_by_delete env data w hfail
  refine ⟨h1, h2, ?_, ?_⟩
  · intro email doc hdoc
    rw [h2]; exact hdoc
  · intro email doc later he hc hdoc hexp
    have hdoc2 : (verifyOtp env data w).2.store email = some doc := by rw [h2]; exact hdoc
    rw [verifyOtp_match (VerifyEnv.served later) _ email doc.otp doc he hc rfl rfl hdoc2 hexp rfl]

/-- A wrong guess at `123456` leaves the document in place, and the right code is
accepted afterwards. -/
theorem verifyOtp_failure_keeps_store_witness :
    (verifyOtp (VerifyEnv.served 2000) ⟨some "a@b.com", some "123456"⟩
      (verifyOtp (VerifyEnv.served 1000) ⟨some "a@b.com", some "000000"⟩
        (World.single "a@b.com" "123456" 0)).2).1 = .ok verifiedOk :=
  (verifyOtp_failure_keeps_store (VerifyEnv.served 1000) ⟨some "a@b.com", some "000000"⟩
    (World.single "a@b.com" "123456" 0)
    (verifyOtp_wrong_code_fails _ _ "a@b.com" "000000" ⟨"123456", some ⟨0⟩⟩
      (by simp [World.single, World.docSet]) (by decide))).2.2.2
    "a@b.com" ⟨"123456", some ⟨0⟩⟩ 2000 (by decide) (by decide)
    (by simp [World.single, World.docSet]) (isOtpExpired_within 2000 0 (by decide))

/-- C9: input validation.  `sendOtp` with a missing or empty email, and
`verifyOtp` with a missing or empty email or a missing or empty code, fail with
the code `invalid-argument` for every store, and return the world they were
given: no document was read, written or deleted, no collaborator was called and
no mail was sent. -/
theorem invalid_argument_before_effects (w : World) :
    (∀ (env : SendEnv) (data : SendData), data.email = none ∨ data.email = some "" →
      sendOtp env data w = (.error ⟨"invalid-argument", "Email is required"⟩, w)) ∧
    (∀ (env : VerifyEnv) (data : VerifyData),
      data.email = none ∨ data.email = some "" ∨ data.otp = none ∨ data.otp = some "" →
      verifyOtp env data w = (.error ⟨"invalid-argument", "Email and OTP required"⟩, w)) ∧
    (∀ env : SendEnv,
      sendOtp env ⟨some ""⟩ w = (.error ⟨"invalid-argument", "Email is required"⟩, w)) ∧
    (∀ env : VerifyEnv, verifyOtp env ⟨some "", some "123456"⟩ w =
      (.error ⟨"invalid-argument", "Email and OTP required"⟩, w)) ∧
    (∀ env : VerifyEnv, verifyOtp env ⟨some "e@x.com", some ""⟩ w =
      (.error ⟨"invalid-argument", "Email and OTP required"⟩, w)) :=
  ⟨fun env data h => sendOtp_invalid env data w h,
   fun env data h => verifyOtp_invalid env data w h,
   fun env => sendOtp_invalid env _ w (Or.inr rfl),
   fun env => verifyOtp_invalid env _ w (Or.inr (Or.inl rfl)),
   fun env => verifyOtp_invalid env _ w (Or.inr (Or.inr (Or.inr rfl)))⟩

/-- A request without `otp` against a store that holds the document is refused,
and the world is returned as it was. -/
theorem invalid_argument_before_effects_witness :
    verifyOtp (VerifyEnv.served 1000) ⟨some "a@b.com", none⟩
        (World.single "a@b.com" "123456" 0) =
      (.error ⟨"invalid-argument", "Email and OTP required"⟩,
        World.single "a@b.com" "123456" 0) :=
  (invalid_argument_before_effects (World.single "a@b.com" "123456" 0)).2.1
    (VerifyEnv.served 1000) ⟨some "a@b.com", none⟩ (Or.inr (Or.inr (Or.inl rfl)))

/-- C10: issue does not roll back on delivery failure.  For a non-empty email
`e`, when the store write is accepted and the mail send is rejected, `sendOtp`
fails with the code `internal`, no mail is added to the outbox, the other
documents are untouched, and the store holds for `e` the document with the newly
generated code, whatever it held before; that code is accepted by `verifyOtp`
within 5 minutes. -/
theorem sendOtp_mail_failure_keeps_record (env : SendEnv) (w : World) (e : String)
    (he : e ≠ "") (hset : env.setFails = false) (hmail : env.sendMailFails = true) :
    (sendOtp env ⟨some e⟩ w).1 = .error ⟨"internal", "Failed to send OTP"⟩ ∧
    (sendOtp env ⟨some e⟩ w).2.store e =
      some ⟨generateOtp env.random, some ⟨env.serverTime⟩⟩ ∧
    (∀ k, k ≠ e → (sendOtp env ⟨some e⟩ w).2.store k = w.store k) ∧
    (sendOtp env ⟨some e⟩ w).2.outbox = w.outbox ∧
    (∀ now : Int, now - env.serverTime ≤ 300000 →
      (verifyOtp (VerifyEnv.served now) ⟨some e, some (generateOtp env.random)⟩
        (sendOtp env ⟨some e⟩ w).2).1 = .ok verifiedOk) := by
  have hstore : (sendOtp env ⟨some e⟩ w).2.store e =
      some ⟨generateOtp env.random, some ⟨env.serverTime⟩⟩ := by
    rw [sendOtp_mail_rejected env w e he hset hmail]
    simp [World.record, World.docSet]
  refine ⟨?_, hstore, ?_, ?_, ?_⟩
  · rw [sendOtp_mail_rejected env w e he hset hmail]
  · intro k hk
    rw [sendOtp_mail_rejected env w e he hset hmail]
    simp [World.record, World.docSet, hk]
  · rw [sendOtp_mail_rejected env w e he hset hmail]
    rfl
  · intro now hnow
    rw [verifyOtp_match (VerifyEnv.served now) _ e (generateOtp env.random) _ he
      (generateOtp_ne_empty env.random env.random_nonneg env.random_lt_one env.random_double)
      rfl rfl hstore
      (isOtpExpired_within now env.serverTime hnow) rfl]

/-- The transporter is down: the call fails with `internal` and the new code
replaces the document that was stored. -/
theorem sendOtp_mail_failure_keeps_record_witness :
    (sendOtp (envMailDown 5000) ⟨some "a@b.com"⟩ (World.single "a@b.com" "123456" 0)).1 =
      .error ⟨"internal", "Failed to send OTP"⟩ ∧
    (sendOtp (envMailDown 5000) ⟨some "a@b.com"⟩
      (World.single "a@b.com" "123456" 0)).2.store "a@b.com" =
      some ⟨generateOtp 0, some ⟨5000⟩⟩ :=
  ⟨(sendOtp_mail_failure_keeps_record (envMailDown 5000) (World.single "a@b.com" "123456" 0)
      "a@b.com" (by decide) rfl rfl).1,
   (sendOtp_mail_failure_keeps_record (envMailDown 5000) (World.single "a@b.com" "123456" 0)
      "a@b.com" (by decide) rfl rfl).2.1⟩

end TaskManager
